import Mathlib

/-!
Verification of the log-following / event-notification program
(`minecraft_ntfy.py`) against its natural-language specification.

The development shallowly embeds the program:
* the regular-expression event patterns become deterministic token
  matchers over `List Char` (the patterns involved are literal segments
  separated by maximal runs of word characters, for which greedy
  maximal-munch matching coincides with the backtracking semantics of
  Python `re`, because every segment that follows such a run starts with
  a non-word character);
* the `follow_log` polling loop becomes a step function over an explicit
  reader state (`RState`) and an abstract filesystem (`World`);
* HTTP notification delivery becomes a function of an abstract outcome;
* exceptions become an explicit `PyExc` value injected into a loop
  iteration.
-/

namespace MinecraftNtfy

/-! ## Character classes and string helpers -/

/-- Python `\w` for the ASCII inputs the patterns are applied to. -/
def isWordChar (c : Char) : Bool := c.isAlpha || c.isDigit || c = '_'

/-- The character class `[\d.:]` used in the velocity whitelist pattern. -/
def isIpChar (c : Char) : Bool := c.isDigit || c = '.' || c = ':'

/-- List version of Python `str.startswith`. -/
def listStarts : List Char → List Char → Bool
  | [], _ => true
  | _ :: _, [] => false
  | c :: cs, d :: ds => c = d && listStarts cs ds

/-- Python `str.startswith`, on `String`. -/
def strStarts (s p : String) : Bool := listStarts p.data s.data

/-! ## Pattern matching engine

The six compiled patterns of the program all have the shape: literal
segments, capturing groups `(\w+)` or `(\.?\w+)`, and one non-capturing
run `[\d.:]+`.  `matchToks` matches such a token list at the start of a
character list (trailing input permitted, as for `re.search`), and
`searchToks` scans for the leftmost matching position, exactly as
`re.Pattern.search` does. -/

inductive Tok where
  | lit : List Char → Tok
  /-- Capturing group: `(\.?\w+)` when the flag is `true`, `(\w+)` when `false`. -/
  | wordGroup : Bool → Tok
  /-- Non-capturing run `[\d.:]+`. -/
  | ipRun : Tok

/-- Consume a literal segment. -/
def dropLit : List Char → List Char → Option (List Char)
  | [], cs => some cs
  | _ :: _, [] => none
  | l :: ls, c :: cs => if c = l then dropLit ls cs else none

/-- Maximal run of word characters. -/
def takeWord : List Char → List Char × List Char
  | [] => ([], [])
  | c :: cs =>
    if isWordChar c then
      let p := takeWord cs
      (c :: p.1, p.2)
    else ([], c :: cs)

/-- Maximal run of `[\d.:]` characters. -/
def takeIp : List Char → List Char × List Char
  | [] => ([], [])
  | c :: cs =>
    if isIpChar c then
      let p := takeIp cs
      (c :: p.1, p.2)
    else ([], c :: cs)

/-- Match a token list at the start of the input, returning the list of
captured groups. -/
def matchToks : List Tok → List Char → Option (List (List Char))
  | [], _ => some []
  | Tok.lit l :: ts, cs => (dropLit l cs).bind (matchToks ts)
  | Tok.wordGroup dot :: ts, cs =>
    let pre : List Char × List Char :=
      match dot, cs with
      | true, '.' :: rest => (['.'], rest)
      | _, _ => ([], cs)
    let w := takeWord pre.2
    if w.1 = [] then none
    else (matchToks ts w.2).map (fun gs => (pre.1 ++ w.1) :: gs)
  | Tok.ipRun :: ts, cs =>
    let w := takeIp cs
    if w.1 = [] then none else matchToks ts w.2

/-- `re.Pattern.search`: try every start position left to right. -/
def searchToks (ts : List Tok) : List Char → Option (List (List Char))
  | [] => matchToks ts []
  | c :: cs =>
    match matchToks ts (c :: cs) with
    | some gs => some gs
    | none => searchToks ts cs

/-! ## The six compiled patterns -/

def SERVER_JOIN_PATTERN : List Tok :=
  [Tok.lit (("[Server thread/INFO]: ").data), Tok.wordGroup false,
   Tok.lit ((" joined the game").data)]

def SERVER_LEAVE_PATTERN : List Tok :=
  [Tok.lit (("[Server thread/INFO]: ").data), Tok.wordGroup false,
   Tok.lit ((" left the game").data)]

def SERVER_WHITELIST_PATTERN : List Tok :=
  [Tok.lit (("[Server thread/INFO]: ").data), Tok.wordGroup false,
   Tok.lit ((" was kicked due to: You are not white-listed on this server!").data)]

def VELOCITY_JOIN_PATTERN : List Tok :=
  [Tok.lit (("[server connection] ").data), Tok.wordGroup true,
   Tok.lit ((" -> ").data), Tok.wordGroup false,
   Tok.lit ((" has connected").data)]

def VELOCITY_LEAVE_PATTERN : List Tok :=
  [Tok.lit (("[server connection] ").data), Tok.wordGroup true,
   Tok.lit ((" -> ").data), Tok.wordGroup false,
   Tok.lit ((" has disconnected").data)]

def VELOCITY_WHITELIST_PATTERN : List Tok :=
  [Tok.lit (("[connected player] ").data), Tok.wordGroup true,
   Tok.lit ((" (/").data), Tok.ipRun,
   Tok.lit (("): disconnected while connecting to ").data), Tok.wordGroup false,
   Tok.lit ((": You are not whitelisted on this server!").data)]

/-! ## Grammar selection, flags and line dispatch (lines 160-254) -/

inductive LogFormat where
  | server
  | velocity
deriving DecidableEq

inductive EventKind where
  | join
  | leave
  | whitelist
deriving DecidableEq

/-- The per-category enable flags `NOTIFY_JOIN` / `NOTIFY_LEAVE` /
`NOTIFY_WHITELIST`. -/
structure Flags where
  notify_join : Bool
  notify_leave : Bool
  notify_whitelist : Bool
deriving DecidableEq

/-- All three categories enabled (the default configuration). -/
def allOn : Flags := ⟨true, true, true⟩

def join_pattern : LogFormat → List Tok
  | LogFormat.velocity => VELOCITY_JOIN_PATTERN
  | LogFormat.server => SERVER_JOIN_PATTERN

def leave_pattern : LogFormat → List Tok
  | LogFormat.velocity => VELOCITY_LEAVE_PATTERN
  | LogFormat.server => SERVER_LEAVE_PATTERN

def whitelist_pattern : LogFormat → List Tok
  | LogFormat.velocity => VELOCITY_WHITELIST_PATTERN
  | LogFormat.server => SERVER_WHITELIST_PATTERN

/-- `pattern.search(line)`, on a `String` line. -/
def searchGroups (ts : List Tok) (line : String) : Option (List (List Char)) :=
  searchToks ts line.data

/-- `match.group(1)`. -/
def group1 (gs : List (List Char)) : String :=
  match gs with
  | g :: _ => String.mk g
  | [] => ("")

/-- `match.group(2)`. -/
def group2 (gs : List (List Char)) : String :=
  match gs with
  | _ :: g :: _ => String.mk g
  | _ => ("")

/-- Message built in the join branch (lines 221-226): `player` is
group 1, and in the velocity format `server` is group 2. -/
def joinMessage (fmt : LogFormat) (gs : List (List Char)) : String :=
  match fmt with
  | LogFormat.velocity => group1 gs ++ (" joined ") ++ group2 gs
  | LogFormat.server => group1 gs ++ (" joined the server")

/-- Message built in the leave branch (lines 234-239). -/
def leaveMessage (fmt : LogFormat) (gs : List (List Char)) : String :=
  match fmt with
  | LogFormat.velocity => group1 gs ++ (" left ") ++ group2 gs
  | LogFormat.server => group1 gs ++ (" left the server")

/-- Message built in the whitelist branch (lines 247-252). -/
def whitelistMessage (fmt : LogFormat) (gs : List (List Char)) : String :=
  match fmt with
  | LogFormat.velocity => group1 gs ++ (" failed to join ") ++ group2 gs ++ (" (not whitelisted)")
  | LogFormat.server => group1 gs ++ (" failed to join (not whitelisted)")

/-- The event-matching and dispatch chain of the loop body
(lines 217-254): each category is guarded by its enable flag, searched
in the order join, leave, whitelist; a successful branch sends one
notification and `continue`s.  The result is the list of notifications
dispatched for the line, tagged with the branch that produced them. -/
def dispatchForLine (fmt : LogFormat) (fl : Flags) (line : String) :
    List (EventKind × String) :=
  match (if fl.notify_join then searchGroups (join_pattern fmt) line else none) with
  | some gs => [(EventKind.join, joinMessage fmt gs)]
  | none =>
    match (if fl.notify_leave then searchGroups (leave_pattern fmt) line else none) with
    | some gs => [(EventKind.leave, leaveMessage fmt gs)]
    | none =>
      match (if fl.notify_whitelist then searchGroups (whitelist_pattern fmt) line else none) with
      | some gs => [(EventKind.whitelist, whitelistMessage fmt gs)]
      | none => []

/-- Modelled from the spec (section 4.2): the pure first-match-wins
matcher `match(line, grammar)`, join checked before leave before
whitelist-reject, without dispatch flags.  Used only to state the
refinement in claim C6. -/
def specMatchChain (fmt : LogFormat) (line : String) :
    Option (EventKind × List (List Char)) :=
  match searchGroups (join_pattern fmt) line with
  | some gs => some (EventKind.join, gs)
  | none =>
    match searchGroups (leave_pattern fmt) line with
    | some gs => some (EventKind.leave, gs)
    | none =>
      match searchGroups (whitelist_pattern fmt) line with
      | some gs => some (EventKind.whitelist, gs)
      | none => none

/-- Rendering of a spec-level event into the dispatched message. -/
def renderEvent (fmt : LogFormat) : EventKind × List (List Char) → EventKind × String
  | (EventKind.join, gs) => (EventKind.join, joinMessage fmt gs)
  | (EventKind.leave, gs) => (EventKind.leave, leaveMessage fmt gs)
  | (EventKind.whitelist, gs) => (EventKind.whitelist, whitelistMessage fmt gs)

/-! ## Claim theorems about the matcher -/

/-- Claim C4, amended: matching the line
`"[server connection] .lobby -> Alice has connected"` with the velocity
join pattern captures group 1 `".lobby"` and group 2 `"Alice"`; the code
maps group 1 to the player and group 2 to the server, so the event has
player `".lobby"`, server `"Alice"`, and the dispatched message is
`".lobby joined Alice"`. -/
theorem C4_thm :
    searchGroups (join_pattern LogFormat.velocity)
        ("[server connection] .lobby -> Alice has connected") =
      some [((".lobby").data), (("Alice").data)] ∧
    dispatchForLine LogFormat.velocity allOn
        ("[server connection] .lobby -> Alice has connected") =
      [(EventKind.join, (".lobby joined Alice"))] := by
  decide

/-- Claim C4 counterexample: on the stated line the captured player
(group 1) is `".lobby"`, not `"Alice"` as the claim asserts, and the
dispatched message is `".lobby joined Alice"`, not `"Alice joined
Alice"`. -/
theorem C4_counterexample :
    (searchGroups (join_pattern LogFormat.velocity)
        ("[server connection] .lobby -> Alice has connected")).map group1 =
      some ((".lobby")) ∧
    ((".lobby") : String) ≠ ("Alice") ∧
    dispatchForLine LogFormat.velocity allOn
        ("[server connection] .lobby -> Alice has connected") ≠
      [(EventKind.join, ("Alice joined Alice"))] := by
  decide

/-- Claim C6 (confirmed): with all categories enabled the dispatch chain
of the loop body is exactly the spec's first-match-wins matcher (join
checked before leave before whitelist-reject) followed by message
rendering; and for every flag assignment at most one notification is
produced per line, a line matching no pattern producing none. -/
theorem C6_thm (fmt : LogFormat) (fl : Flags) (line : String) :
    dispatchForLine fmt allOn line =
      ((specMatchChain fmt line).map (renderEvent fmt)).toList ∧
    (dispatchForLine fmt fl line).length ≤ 1 := by
  constructor
  · unfold dispatchForLine specMatchChain allOn
    cases hj : searchGroups (join_pattern fmt) line with
    | some gs => simp [hj, renderEvent]
    | none =>
      cases hl : searchGroups (leave_pattern fmt) line with
      | some gs => simp [hj, hl, renderEvent]
      | none =>
        cases hw : searchGroups (whitelist_pattern fmt) line with
        | some gs => simp [hj, hl, hw, renderEvent]
        | none => simp [hj, hl, hw]
  · unfold dispatchForLine
    cases (if fl.notify_join then searchGroups (join_pattern fmt) line else none) with
    | some gs => simp
    | none =>
      cases (if fl.notify_leave then searchGroups (leave_pattern fmt) line else none) with
      | some gs => simp
      | none =>
        cases (if fl.notify_whitelist then searchGroups (whitelist_pattern fmt) line else none) with
        | some gs => simp
        | none => simp

/-- Claim C7 (confirmed): with the leave-category flag off, no leave
notification is ever dispatched for a line, whatever it matches. -/
theorem C7_thm (fmt : LogFormat) (fl : Flags) (line m : String)
    (hL : fl.notify_leave = false) :
    (EventKind.leave, m) ∉ dispatchForLine fmt fl line := by
  unfold dispatchForLine
  rw [hL]
  simp only [if_false, Bool.false_eq_true]
  cases hj : (if fl.notify_join then searchGroups (join_pattern fmt) line else none) with
  | some gs => simp
  | none =>
    cases hw : (if fl.notify_whitelist then searchGroups (whitelist_pattern fmt) line else none) with
    | some gs => simp
    | none => simp

/-- Witness for C7: a line matching the (standard-grammar) leave pattern
produces no leave notification when the leave flag is off. -/
theorem C7_witness :
    (EventKind.leave, ("Bob left the server")) ∉
      dispatchForLine LogFormat.server (Flags.mk true false true)
        ("[Server thread/INFO]: Bob left the game") :=
  C7_thm LogFormat.server (Flags.mk true false true)
    ("[Server thread/INFO]: Bob left the game") ("Bob left the server") rfl

/-! ## Abstract filesystem

A `FileObj` is one file object (identified by its inode); its content is
the list of complete lines appended so far, and `mtime` is bumped by
every append.  The `World` holds all live objects (an object stays
readable through an open handle after being renamed or unlinked),
records which inode the monitored path currently resolves to, and the
other entries of the log directory as (name, mtime) pairs.  The file at
the monitored path has the basename `latest.log` (the program's default
`LOG_FILE`), which is also the hard-coded prefix of
`get_latest_log_file`. -/

structure FileObj where
  ino : Nat
  mtime : Nat
  lines : List String
deriving DecidableEq

structure World where
  objs : List FileObj
  pathIno : Option Nat
  dirOthers : List (String × Nat)
deriving DecidableEq

def World.lookup (w : World) (i : Nat) : Option FileObj :=
  w.objs.find? (fun o => o.ino == i)

/-- The file object the monitored path currently resolves to
(`file.exists()` / `os.stat(file_path)` / `open(file)` all go through
the path). -/
def World.pathFile (w : World) : Option FileObj :=
  w.pathIno.bind w.lookup

/-! ## get_file_info and get_latest_log_file (lines 128-148) -/

/-- The (inode, mtime) snapshot of `get_file_info`: the `FileIdentity`
of the spec's data model. -/
structure FileInfo where
  inode : Nat
  mtime : Nat
deriving DecidableEq

def get_file_info (w : World) : Option FileInfo :=
  (w.pathFile).map (fun o => FileInfo.mk o.ino o.mtime)

/-- The directory listing seen by `log_dir.iterdir()`: the monitored
file (under its name `latest.log`) when present, plus the other
entries. -/
def dirEntries (w : World) : List (String × Nat) :=
  (match w.pathFile with
   | some o => [(("latest.log"), o.mtime)]
   | none => []) ++ w.dirOthers

/-- Python `max(files, key=mtime)`: left fold keeping the current
maximum, replacing it only on a strictly greater key, so the first
maximal element wins. -/
def pickMax : (String × Nat) → List (String × Nat) → (String × Nat)
  | e, [] => e
  | e, x :: xs => pickMax (if x.2 > e.2 then x else e) xs

/-- `get_latest_log_file` (lines 139-148): among directory entries whose
name starts with `latest.log`, the one with the greatest mtime. -/
def get_latest_log_file (w : World) : Option (String × Nat) :=
  match (dirEntries w).filter (fun e => strStarts e.1 ("latest.log")) with
  | [] => none
  | e :: es => some (pickMax e es)

/-! ## The follow_log loop state (lines 150-264) -/

/-- An open read handle: the inode of the object it reads, the current
line position, and (ghost data) the position assigned by
`seek(0, 2)` when the handle was opened, i.e. the number of lines the
file had at that moment. -/
structure Handle where
  ino : Nat
  pos : Nat
  openPos : Nat
deriving DecidableEq

/-- The loop-local state of `follow_log`: `current_inode`,
`current_mtime`, `file_handle` and `last_check`. -/
structure RState where
  current_inode : Option Nat
  current_mtime : Option Nat
  handle : Option Handle
  last_check : Nat
deriving DecidableEq

def initState : RState := RState.mk none none none 0

/-- A line surfaced by `readline`, with its source inode, its index in
the file, and the open position of the handle that read it. -/
structure Yield where
  ino : Nat
  idx : Nat
  openPos : Nat
  line : String
deriving DecidableEq

/-- Result of the periodic identity-check phase: the updated state,
whether the iteration proceeds to the read phase (`false` when the
branch executed `continue`), whether an `open` was performed, and
whether that open closed a previously held handle (a reopen). -/
structure CheckOut where
  st : RState
  proceed : Bool
  opened : Bool
  wasReopen : Bool
deriving DecidableEq

/-- The identity-check phase of one loop iteration (lines 170-208).
When the check interval has elapsed: if the path is missing or no
prefix-matching file exists, the handle is closed and the iteration
`continue`s (without updating `last_check`); otherwise the file is
reopened and positioned at its end whenever the polled inode or mtime
differs from the recorded one or no handle is held. -/
def checkPhase (w : World) (now : Nat) (s : RState) : CheckOut :=
  if 5 ≤ now - s.last_check then
    match w.pathFile, get_latest_log_file w with
    | none, _ => CheckOut.mk { s with handle := none } false false false
    | some _, none => CheckOut.mk { s with handle := none } false false false
    | some o, some _ =>
      if some o.ino ≠ s.current_inode ∨ some o.mtime ≠ s.current_mtime ∨
          s.handle = none then
        CheckOut.mk
          (RState.mk (some o.ino) (some o.mtime)
            (some (Handle.mk o.ino o.lines.length o.lines.length)) now)
          true true s.handle.isSome
      else
        CheckOut.mk { s with last_check := now } true false false
  else CheckOut.mk s true false false

/-- Result of the read phase: updated state, the line surfaced by
`readline` (if any) and the notifications dispatched for it. -/
structure ReadRes where
  st : RState
  yields : List Yield
  msgs : List (EventKind × String)
deriving DecidableEq

/-- The read phase of one loop iteration (lines 210-254): one `readline`
on the open handle; a complete line advances the position and goes
through the dispatch chain, end-of-data just sleeps. -/
def readLinePhase (fmt : LogFormat) (fl : Flags) (w : World) (s : RState) : ReadRes :=
  match s.handle with
  | none => ReadRes.mk s [] []
  | some h =>
    match w.lookup h.ino with
    | none => ReadRes.mk s [] []
    | some o =>
      if h.pos < o.lines.length then
        let line := o.lines.getD h.pos ("")
        ReadRes.mk { s with handle := some (Handle.mk h.ino (h.pos + 1) h.openPos) }
          [Yield.mk h.ino h.pos h.openPos line]
          (dispatchForLine fmt fl line)
      else ReadRes.mk s [] []

/-- Result of one full loop iteration. -/
structure StepRes where
  st : RState
  yields : List Yield
  msgs : List (EventKind × String)
  opened : Bool
  wasReopen : Bool
deriving DecidableEq

/-- One iteration of the `while True` body without a fault: the check
phase, then (unless it `continue`d) the read phase. -/
def loop_body (fmt : LogFormat) (fl : Flags) (w : World) (now : Nat) (s : RState) :
    StepRes :=
  let c := checkPhase w now s
  if c.proceed then
    let r := readLinePhase fmt fl w c.st
    StepRes.mk r.st r.yields r.msgs c.opened c.wasReopen
  else StepRes.mk c.st [] [] c.opened c.wasReopen

/-- Run a sequence of loop iterations, each against the world snapshot
and clock value of its step, collecting all surfaced lines. -/
def runInputs (fmt : LogFormat) (fl : Flags) :
    List (World × Nat) → RState → RState × List Yield
  | [], s => (s, [])
  | (w, t) :: rest, s =>
    let r := loop_body fmt fl w t s
    let k := runInputs fmt fl rest r.st
    (k.1, r.yields ++ k.2)

/-! ## Claim C1: behaviour across a rotation boundary

The replay scenario of the spec: the old file (inode 1) receives one
line which is read; the file is then rotated (renamed away, a fresh
empty file with inode 2 appears under the path) and one line is
appended to the new file before the next identity poll and another one
after it. -/

/-- Old file object before any append. -/
def c1old0 : FileObj := FileObj.mk 1 10 []

/-- Old file object after the append of line `a`. -/
def c1old1 (a : String) : FileObj := FileObj.mk 1 11 [a]

/-- New file object after the append of line `b` (done before the
rotation is detected). -/
def c1new1 (b : String) : FileObj := FileObj.mk 2 21 [b]

/-- New file object after the further append of line `c`. -/
def c1new2 (b c : String) : FileObj := FileObj.mk 2 22 [b, c]

def c1w0 : World := World.mk [c1old0] (some 1) []

def c1w1 (a : String) : World := World.mk [c1old1 a] (some 1) []

def c1w2 (a b : String) : World :=
  World.mk [c1old1 a, c1new1 b] (some 2) [(("latest.log.1"), 11)]

def c1w3 (a b c : String) : World :=
  World.mk [c1old1 a, c1new2 b c] (some 2) [(("latest.log.1"), 11)]

/-- The rotation replay: open at t=5, read `a` at t=6, idle at t=7,
rotation (with `b` already appended to the new file) seen idle at t=8,
identity poll detects the rotation at t=10, `c` appended and read at
t=11. -/
def rotationScn (a b c : String) : List (World × Nat) :=
  [(c1w0, 5), (c1w1 a, 6), (c1w1 a, 7), (c1w2 a b, 8), (c1w2 a b, 10),
   (c1w3 a b c, 11)]

set_option maxHeartbeats 2000000 in
/-- Claim C1, amended: replaying the rotation scenario, the loop yields
the pre-rotation line `a` exactly once and the line `c` appended to the
new file after the reopen exactly once, and never re-yields a line read
from the old file; but the line `b` appended to the new file between
the rotation and the reopen is lost, because the reopen seeks to the
end of the new file. -/
theorem C1_thm (a b c : String) :
    ((runInputs LogFormat.server allOn (rotationScn a b c) initState).2.map
      Yield.line) = [a, c] := rfl

/-- Claim C1 counterexample: with concrete lines, `"b"` is appended to
the new file after the rotation yet is never yielded, refuting "no line
appended to the new file is lost". -/
theorem C1_counterexample :
    ("b") ∈ (c1new2 ("b") ("c")).lines ∧
    ("b") ∉ ((runInputs LogFormat.server allOn
        (rotationScn ("a") ("b") ("c")) initState).2.map Yield.line) := by
  decide

/-! ## Claim C2: what triggers a reopen -/

/-- World before the append: one file, inode 1, mtime 10, empty. -/
def c2wA : World := World.mk [FileObj.mk 1 10 []] (some 1) []

/-- World after appending one line to the same file: same inode, the
append bumped the mtime. -/
def c2wB : World := World.mk [FileObj.mk 1 11 [("x")]] (some 1) []

/-- The reader state after the first open of inode 1 at t=5. -/
def c2s1 : RState := RState.mk (some 1) (some 10) (some (Handle.mk 1 0 0)) 5

/-- Claim C2 counterexample: between the two polls the only filesystem
change is an append to the monitored file itself (the polled inode
equals the recorded one), yet the next identity check closes and
reopens the handle, because the append moved the mtime — refuting
"appending content to the same file never triggers a reopen". -/
theorem C2_counterexample :
    (get_file_info c2wB).map FileInfo.inode =
      ((loop_body LogFormat.server allOn c2wA 5 initState).st).current_inode ∧
    (loop_body LogFormat.server allOn c2wB 10
      (loop_body LogFormat.server allOn c2wA 5 initState).st).wasReopen = true := by
  decide

/-- Claim C2, amended: at a due identity check with the path present,
an open is performed exactly when the polled inode differs from the
recorded one, or the polled mtime differs from the recorded one, or no
handle is currently held.  Since appends move the mtime, appending to
the same file does trigger a reopen at the next check, and a read
failure (which closes the handle) leads to a reopen at the next check
through the no-handle condition. -/
theorem C2_thm (w : World) (now : Nat) (s : RState) (o : FileObj) (l : String × Nat)
    (h1 : 5 ≤ now - s.last_check) (h2 : w.pathFile = some o)
    (h3 : get_latest_log_file w = some l) :
    ((checkPhase w now s).opened = true ↔
      (some o.ino ≠ s.current_inode ∨ some o.mtime ≠ s.current_mtime ∨
        s.handle = none)) := by
  unfold checkPhase
  rw [if_pos h1, h2, h3]
  by_cases hc : (some o.ino ≠ s.current_inode ∨ some o.mtime ≠ s.current_mtime ∨
      s.handle = none)
  · simp [hc]
  · simp [hc]

/-- Witness for C2: the amended characterization evaluated on the
append-only scenario. -/
theorem C2_witness :
    (checkPhase c2wB 10 c2s1).opened = true ↔
      (some 1 ≠ c2s1.current_inode ∨ some 11 ≠ c2s1.current_mtime ∨
        c2s1.handle = none) :=
  C2_thm c2wB 10 c2s1 (FileObj.mk 1 11 [("x")]) ((("latest.log"), 11))
    (by decide) (by decide) (by decide)

/-! ## Claim C3: the directory "fallback" -/

lemma pickMax_mem (e : String × Nat) (es : List (String × Nat)) :
    pickMax e es ∈ e :: es := by
  induction es generalizing e with
  | nil => simp [pickMax]
  | cons x xs ih =>
    rw [pickMax]
    rcases List.mem_cons.mp (ih (if x.2 > e.2 then x else e)) with h1 | h1
    · rw [h1]
      by_cases hx : x.2 > e.2
      · simp [hx]
      · simp [hx]
    · exact List.mem_cons_of_mem _ (List.mem_cons_of_mem _ h1)

lemma pickMax_ge (e : String × Nat) (es : List (String × Nat)) :
    ∀ x ∈ e :: es, x.2 ≤ (pickMax e es).2 := by
  induction es generalizing e with
  | nil =>
    intro x hx
    rw [List.mem_singleton.mp hx, pickMax]
  | cons y ys ih =>
    intro x hx
    rw [pickMax]
    have hbase : e.2 ≤ (if y.2 > e.2 then y else e).2 := by
      by_cases hy : y.2 > e.2
      · rw [if_pos hy]
        exact Nat.le_of_lt hy
      · rw [if_neg hy]
    have hy2 : y.2 ≤ (if y.2 > e.2 then y else e).2 := by
      by_cases hy : y.2 > e.2
      · rw [if_pos hy]
      · rw [if_neg hy]
        exact Nat.le_of_not_lt hy
    have hhead := ih (if y.2 > e.2 then y else e)
      (if y.2 > e.2 then y else e) (List.mem_cons_self _ _)
    rcases List.mem_cons.mp hx with h1 | h1
    · subst h1
      exact Nat.le_trans hbase hhead
    · rcases List.mem_cons.mp h1 with h2 | h2
      · subst h2
        exact Nat.le_trans hy2 hhead
      · exact ih (if y.2 > e.2 then y else e) x (List.mem_cons_of_mem _ h2)

/-- `get_latest_log_file` really does select, among the prefix-matching
directory entries, one whose mtime dominates every prefix-matching
entry. -/
lemma get_latest_spec (w : World) (e : String × Nat)
    (h : get_latest_log_file w = some e) :
    strStarts e.1 ("latest.log") = true ∧
      ∀ d ∈ dirEntries w, strStarts d.1 ("latest.log") = true → d.2 ≤ e.2 := by
  unfold get_latest_log_file at h
  rcases hf : (dirEntries w).filter (fun x => strStarts x.1 ("latest.log")) with _ | ⟨a, as⟩
  · rw [hf] at h
    simp at h
  · rw [hf] at h
    simp only [Option.some.injEq] at h
    subst h
    constructor
    · have hm : pickMax a as ∈ a :: as := pickMax_mem a as
      rw [← hf] at hm
      exact (List.mem_filter.mp hm).2
    · intro d hd hpd
      have hdf : d ∈ (dirEntries w).filter (fun x => strStarts x.1 ("latest.log")) :=
        List.mem_filter.mpr ⟨hd, hpd⟩
      rw [hf] at hdf
      exact pickMax_ge a as d hdf

/-- When the monitored path does not resolve, a due check closes the
handle and `continue`s: nothing is opened, nothing is read. -/
lemma checkPhase_no_path (w : World) (now : Nat) (s : RState)
    (h4 : w.pathFile = none) (h5 : 5 ≤ now - s.last_check) :
    checkPhase w now s = CheckOut.mk { s with handle := none } false false false := by
  unfold checkPhase
  rw [if_pos h5, h4]

/-- Claim C3, amended: `get_latest_log_file` does select the
prefix-matching directory entry with the most recent modification time,
but its result is used only as an existence gate: whenever the exact
target path is unavailable at a due check — even with prefix-matching
files present — the loop closes the handle and waits, and never opens
or reads the fallback file. -/
theorem C3_thm (w : World) (e d : String × Nat) (now : Nat) (s : RState)
    (h1 : get_latest_log_file w = some e)
    (h2 : d ∈ dirEntries w) (h3 : strStarts d.1 ("latest.log") = true)
    (h4 : w.pathFile = none) (h5 : 5 ≤ now - s.last_check) :
    strStarts e.1 ("latest.log") = true ∧ d.2 ≤ e.2 ∧
    (checkPhase w now s).st.handle = none ∧
    (checkPhase w now s).opened = false ∧
    (checkPhase w now s).proceed = false := by
  have hs := get_latest_spec w e h1
  have hcp := checkPhase_no_path w now s h4 h5
  exact ⟨hs.1, hs.2 d h2 h3, by rw [hcp], by rw [hcp], by rw [hcp]⟩

/-- A directory state where the exact path is missing but a
prefix-matching file exists. -/
def c3w : World := World.mk [] none [(("latest.log.1"), 30)]

/-- Claim C3 counterexample: the exact path is unavailable while the
prefix-matching file `latest.log.1` exists (and is identified by
`get_latest_log_file`), yet the due check leaves no handle open and
opens nothing — the fallback file is never monitored, refuting "it
opens and reads from that fallback file". -/
theorem C3_counterexample :
    get_latest_log_file c3w = some ((("latest.log.1"), 30)) ∧
    (checkPhase c3w 5 initState).st.handle = none ∧
    (checkPhase c3w 5 initState).opened = false := by
  decide

/-- Witness for C3: the amended claim evaluated on that directory
state. -/
theorem C3_witness :
    strStarts (("latest.log.1")) ("latest.log") = true ∧ (30 : Nat) ≤ 30 ∧
    (checkPhase c3w 5 initState).st.handle = none ∧
    (checkPhase c3w 5 initState).opened = false ∧
    (checkPhase c3w 5 initState).proceed = false :=
  C3_thm c3w ((("latest.log.1"), 30)) ((("latest.log.1"), 30)) 5 initState
    (by decide) (by decide) (by decide) (by decide) (by decide)

/-! ## Claim C5: tail-only semantics -/

/-- Invariant: any held handle has advanced at least to the position it
was opened at. -/
def handleInv (s : RState) : Prop := ∀ h, s.handle = some h → h.openPos ≤ h.pos

/-- The check phase leaves the handle alone, closes it, or opens the
path file positioned at its end. -/
lemma checkPhase_handle (w : World) (now : Nat) (s : RState) :
    (checkPhase w now s).st.handle = s.handle ∨
    (checkPhase w now s).st.handle = none ∨
    ∃ o, w.pathFile = some o ∧
      (checkPhase w now s).st.handle =
        some (Handle.mk o.ino o.lines.length o.lines.length) := by
  unfold checkPhase
  by_cases h5 : 5 ≤ now - s.last_check
  · rw [if_pos h5]
    rcases hp : w.pathFile with _ | o
    · right
      left
      rfl
    · rcases hl : get_latest_log_file w with _ | l
      · right
        left
        rfl
      · by_cases hc : (some o.ino ≠ s.current_inode ∨ some o.mtime ≠ s.current_mtime ∨
            s.handle = none)
        · right
          right
          exact ⟨o, rfl, by simp [hc]⟩
        · left
          simp [hc]
  · rw [if_neg h5]
    left
    rfl

/-- Whenever the check phase performs an open, the resulting handle is
on the path file, positioned at (and recorded as opened at) its end. -/
lemma checkPhase_opened (w : World) (now : Nat) (s : RState) (o : FileObj)
    (hpf : w.pathFile = some o)
    (hop : (checkPhase w now s).opened = true) :
    (checkPhase w now s).st.handle =
      some (Handle.mk o.ino o.lines.length o.lines.length) := by
  unfold checkPhase at hop ⊢
  by_cases h5 : 5 ≤ now - s.last_check
  · rw [if_pos h5] at hop ⊢
    rw [hpf] at hop ⊢
    rcases hl : get_latest_log_file w with _ | l
    · rw [hl] at hop
      simp at hop
    · rw [hl] at hop
      by_cases hc : (some o.ino ≠ s.current_inode ∨ some o.mtime ≠ s.current_mtime ∨
          s.handle = none)
      · simp [hc]
      · simp [hc] at hop
  · rw [if_neg h5] at hop
    simp at hop

/-- The read phase preserves the invariant and only surfaces lines at
or after the handle's open position. -/
lemma readLinePhase_spec (fmt : LogFormat) (fl : Flags) (w : World) (s : RState)
    (hs : handleInv s) :
    handleInv (readLinePhase fmt fl w s).st ∧
    ∀ y ∈ (readLinePhase fmt fl w s).yields, y.openPos ≤ y.idx := by
  unfold readLinePhase
  rcases hh : s.handle with _ | h
  · refine ⟨hs, ?_⟩
    intro y hy
    simp at hy
  · rcases ho : w.lookup h.ino with _ | o
    · constructor
      · simp only [ho]
        exact hs
      · intro y hy
        simp [ho] at hy
    · by_cases hpos : h.pos < o.lines.length
      · constructor
        · simp only [ho, hpos, if_true]
          intro h2 hh2
          simp only [Option.some.injEq] at hh2
          rw [← hh2]
          exact Nat.le_succ_of_le (hs h hh)
        · intro y hy
          simp [ho, hpos] at hy
          rw [hy]
          exact hs h hh
      · constructor
        · simp only [ho, hpos, if_false]
          exact hs
        · intro y hy
          simp [ho, hpos] at hy

/-- One loop iteration preserves the invariant and only surfaces lines
at or after the open position of the handle that read them. -/
lemma loop_body_spec (fmt : LogFormat) (fl : Flags) (w : World) (now : Nat)
    (s : RState) (hs : handleInv s) :
    handleInv (loop_body fmt fl w now s).st ∧
    ∀ y ∈ (loop_body fmt fl w now s).yields, y.openPos ≤ y.idx := by
  have hc : handleInv (checkPhase w now s).st := by
    rcases checkPhase_handle w now s with h | h | ⟨o, hpf, h⟩
    · intro h2 hh2
      exact hs h2 (h ▸ hh2)
    · intro h2 hh2
      rw [h] at hh2
      exact absurd hh2 (by simp)
    · intro h2 hh2
      rw [h] at hh2
      simp only [Option.some.injEq] at hh2
      rw [← hh2]
  unfold loop_body
  by_cases hp : (checkPhase w now s).proceed
  · simp only [hp, if_true]
    have hr := readLinePhase_spec fmt fl w (checkPhase w now s).st hc
    exact ⟨hr.1, hr.2⟩
  · simp only [hp]
    simp only [Bool.false_eq_true, if_false]
    refine ⟨hc, ?_⟩
    intro y hy
    simp at hy

/-- Over any run of the loop, every surfaced line lies at or after the
open position of the handle that surfaced it. -/
lemma runInputs_spec (fmt : LogFormat) (fl : Flags) :
    ∀ (inputs : List (World × Nat)) (s : RState), handleInv s →
      ∀ y ∈ (runInputs fmt fl inputs s).2, y.openPos ≤ y.idx := by
  intro inputs
  induction inputs with
  | nil =>
    intro s hs y hy
    simp [runInputs] at hy
  | cons p rest ih =>
    rcases p with ⟨w, t⟩
    intro s hs y hy
    simp only [runInputs] at hy
    rcases List.mem_append.mp hy with h1 | h1
    · exact (loop_body_spec fmt fl w t s hs).2 y h1
    · exact ih (loop_body fmt fl w t s).st (loop_body_spec fmt fl w t s hs).1 y h1

/-- Claim C5 (confirmed): every open performed by the loop (first open
or reopen) positions the handle at the end of the file as it is at that
moment, and consequently, over any run started from the initial state,
every surfaced line lies strictly after the content present at the
moment its handle was opened — lines already present at an open are
never yielded, hence never matched or reported. -/
theorem C5_thm (fmt : LogFormat) (fl : Flags) (inputs : List (World × Nat))
    (y : Yield) (w : World) (now : Nat) (s : RState) (o : FileObj)
    (hy : y ∈ (runInputs fmt fl inputs initState).2)
    (hpf : w.pathFile = some o)
    (hop : (checkPhase w now s).opened = true) :
    y.openPos ≤ y.idx ∧
    (checkPhase w now s).st.handle =
      some (Handle.mk o.ino o.lines.length o.lines.length) :=
  ⟨runInputs_spec fmt fl inputs initState (fun h2 hh2 => nomatch hh2) y hy,
   checkPhase_opened w now s o hpf hop⟩

def c5wA : World := World.mk [FileObj.mk 1 10 []] (some 1) []

def c5wB : World := World.mk [FileObj.mk 1 11 [("p")]] (some 1) []

def c5scn : List (World × Nat) := [(c5wA, 5), (c5wB, 6)]

/-- Witness for C5: a run that opens an empty file at t=5 and reads the
line appended afterwards at t=6 surfaces that line at index 0 with open
position 0, and the open at t=5 positions the handle at the end of the
(empty) file. -/
theorem C5_witness :
    (Yield.mk 1 0 0 ("p")).openPos ≤ (Yield.mk 1 0 0 ("p")).idx ∧
    (checkPhase c5wA 5 initState).st.handle = some (Handle.mk 1 0 0) :=
  C5_thm LogFormat.server allOn c5scn (Yield.mk 1 0 0 ("p")) c5wA 5 initState
    (FileObj.mk 1 10 []) (by decide) (by decide) (by decide)

/-! ## Claim C8: notification sends (lines 80-126)

The HTTP call is abstracted by its outcome: a response with a status
code, or a transport failure (`requests.RequestException`).
`raise_for_status()` raises `requests.HTTPError` — a subclass of
`RequestException` — for status codes in 400..599; both send functions
catch `RequestException`, log, and return. -/

inductive HttpOutcome where
  | status : Nat → HttpOutcome
  | transportError : HttpOutcome
deriving DecidableEq

/-- Observable outcome of one send call: how many HTTP posts it made,
whether it returned normally, and whether it logged a failure. -/
structure SendOutcome where
  attempts : Nat
  returnedNormally : Bool
  loggedFailure : Bool
deriving DecidableEq

/-- `send_ntfy_notification` (lines 80-99): one POST;
`raise_for_status` raises `HTTPError` exactly for status codes in
400..599, which is caught together with transport errors and logged as
a failure; any other status (2xx, but also a terminal 3xx or a code
≥ 600) does not raise and is logged as a success.  The function always
returns. -/
def send_ntfy_notification : HttpOutcome → SendOutcome
  | HttpOutcome.status c => SendOutcome.mk 1 true (decide (400 ≤ c ∧ c < 600))
  | HttpOutcome.transportError => SendOutcome.mk 1 true true

/-- `send_discord_notification` (lines 101-119): same structure. -/
def send_discord_notification : HttpOutcome → SendOutcome
  | HttpOutcome.status c => SendOutcome.mk 1 true (decide (400 ≤ c ∧ c < 600))
  | HttpOutcome.transportError => SendOutcome.mk 1 true true

inductive NotifyService where
  | ntfy
  | discord
deriving DecidableEq

/-- `send_notification` (lines 121-126): route by service. -/
def send_notification (svc : NotifyService) (o : HttpOutcome) : SendOutcome :=
  match svc with
  | NotifyService.ntfy => send_ntfy_notification o
  | NotifyService.discord => send_discord_notification o

/-! ## Exceptions and the full loop iteration (lines 256-264)

A fault injected into an iteration models an exception raised in the
`try` body.  `except (IOError, PermissionError)` closes the handle and
sleeps; `except Exception` logs and sleeps, keeping all state; anything
that is not an `Exception` subclass — such as `KeyboardInterrupt`,
which `main` catches around `follow_log` — propagates. -/

inductive PyExc where
  | ioError
  | permissionError
  | otherException
  | keyboardInterrupt
deriving DecidableEq

/-- Whether the raised value is an instance of class `Exception` (the
`except` clauses of `follow_log` only catch those). -/
def PyExc.isException : PyExc → Bool
  | PyExc.keyboardInterrupt => false
  | _ => true

/-- Result of one full `while True` iteration: final state, surfaced
lines, outcomes of the sends performed, and the exception that escaped
the iteration (propagating out of `follow_log`), if any. -/
structure IterRes where
  st : RState
  yields : List Yield
  sends : List SendOutcome
  raised : Option PyExc
deriving DecidableEq

/-- One full iteration of `follow_log`'s loop: a fault raised in the
body is dispatched to the `except` clauses (lines 256-264); otherwise
the body runs and each dispatched message is sent with the given HTTP
outcome. -/
def follow_log_iter (fmt : LogFormat) (fl : Flags) (svc : NotifyService)
    (w : World) (now : Nat) (sink : HttpOutcome) (fault : Option PyExc)
    (s : RState) : IterRes :=
  match fault with
  | some PyExc.ioError => IterRes.mk { s with handle := none } [] [] none
  | some PyExc.permissionError => IterRes.mk { s with handle := none } [] [] none
  | some PyExc.otherException => IterRes.mk s [] [] none
  | some PyExc.keyboardInterrupt => IterRes.mk s [] [] (some PyExc.keyboardInterrupt)
  | none =>
    let r := loop_body fmt fl w now s
    IterRes.mk r.st r.yields (r.msgs.map (fun _ => send_notification svc sink)) none

/-- Claim C8 counterexample: a terminal 304 response is a non-2xx
status, so per the claim its send has failed; yet `raise_for_status`
raises only for 400..599, so both send functions return normally
having logged a success, not a failure — refuting "the failure is
logged" for non-2xx statuses outside 400..599. -/
theorem C8_counterexample :
    ¬ (200 ≤ 304 ∧ 304 < 300) ∧
    (send_ntfy_notification (HttpOutcome.status 304)).loggedFailure = false ∧
    (send_ntfy_notification (HttpOutcome.status 304)).returnedNormally = true ∧
    (send_discord_notification (HttpOutcome.status 304)).loggedFailure = false := by
  decide

/-- Claim C8, amended: every send performs exactly one HTTP post and
returns normally whatever the outcome, and the failure is never
retried; a transport error, or a status in 400..599 (the band for
which `raise_for_status` raises), is logged as a failure and swallowed
— a non-2xx status outside that band does not raise and is logged as a
success instead.  The reader state and surfaced lines of a loop
iteration do not depend on the sink outcome, so failed notifications
never disturb subsequent reading and matching. -/
theorem C8_thm (svc : NotifyService) (o : HttpOutcome) (c : Nat)
    (fmt : LogFormat) (fl : Flags) (w : World) (now : Nat)
    (o1 o2 : HttpOutcome) (fault : Option PyExc) (s : RState)
    (hc : 400 ≤ c ∧ c < 600) :
    (send_notification svc o).returnedNormally = true ∧
    (send_notification svc o).attempts = 1 ∧
    (send_notification svc HttpOutcome.transportError).loggedFailure = true ∧
    (send_notification svc (HttpOutcome.status c)).loggedFailure = true ∧
    (follow_log_iter fmt fl svc w now o1 fault s).st =
      (follow_log_iter fmt fl svc w now o2 fault s).st ∧
    (follow_log_iter fmt fl svc w now o1 fault s).yields =
      (follow_log_iter fmt fl svc w now o2 fault s).yields := by
  refine ⟨?_, ?_, ?_, ?_, ?_, ?_⟩
  · cases svc <;> cases o <;> rfl
  · cases svc <;> cases o <;> rfl
  · cases svc <;> rfl
  · cases svc <;> simp [send_notification, send_ntfy_notification,
      send_discord_notification, hc]
  · rcases fault with _ | e
    · rfl
    · cases e <;> rfl
  · rcases fault with _ | e
    · rfl
    · cases e <;> rfl

def c8w : World := World.mk [] none []

/-- Witness for C8: the amended claim evaluated for an ntfy send with a
404 response during a loop iteration. -/
theorem C8_witness :
    (send_notification NotifyService.ntfy (HttpOutcome.status 200)).returnedNormally = true ∧
    (send_notification NotifyService.ntfy (HttpOutcome.status 200)).attempts = 1 ∧
    (send_notification NotifyService.ntfy HttpOutcome.transportError).loggedFailure = true ∧
    (send_notification NotifyService.ntfy (HttpOutcome.status 404)).loggedFailure = true ∧
    (follow_log_iter LogFormat.server allOn NotifyService.ntfy c8w 0
      (HttpOutcome.status 404) none initState).st =
      (follow_log_iter LogFormat.server allOn NotifyService.ntfy c8w 0
        HttpOutcome.transportError none initState).st ∧
    (follow_log_iter LogFormat.server allOn NotifyService.ntfy c8w 0
      (HttpOutcome.status 404) none initState).yields =
      (follow_log_iter LogFormat.server allOn NotifyService.ntfy c8w 0
        HttpOutcome.transportError none initState).yields :=
  C8_thm NotifyService.ntfy (HttpOutcome.status 200) 404 LogFormat.server allOn
    c8w 0 (HttpOutcome.status 404) HttpOutcome.transportError none initState
    (by decide)

/-! ## Claim C9: configuration validation and startup (lines 42-78, 266-283) -/

/-- The configuration surface read from the environment, together with
the one filesystem fact `validate_config` consults
(`Path(LOG_FILE).parent.exists()`).  Unset environment variables are
`none`; Python truthiness makes the empty string falsy. -/
structure Config where
  log_file : String
  log_dir_exists : Bool
  notify_service : String
  log_format : String
  ntfy_topic : Option String
  ntfy_url : String
  discord_webhook_url : Option String
  notify_subject : String
deriving DecidableEq

/-- `validate_config` (lines 42-78). -/
def validate_config (c : Config) : Bool :=
  if c.log_file = ("") then false
  else if c.log_dir_exists = false then false
  else if c.notify_subject = ("") then false
  else if ¬ (c.log_format = ("server") ∨ c.log_format = ("velocity")) then false
  else if c.notify_service = ("ntfy") then
    match c.ntfy_topic with
    | none => false
    | some t =>
      if t = ("") then false
      else strStarts c.ntfy_url ("http://") || strStarts c.ntfy_url ("https://")
  else if c.notify_service = ("discord") then
    match c.discord_webhook_url with
    | none => false
    | some u =>
      if u = ("") then false
      else strStarts u ("https://discord.com/api/webhooks/")
  else false

/-- How `main` (lines 266-283) starts: `exit(1)` before any monitoring
when validation fails, otherwise `follow_log` is entered. -/
inductive MainStart where
  | exitCode : Nat → MainStart
  | monitoring : MainStart
deriving DecidableEq

def main_start (c : Config) : MainStart :=
  match validate_config c with
  | true => MainStart.monitoring
  | false => MainStart.exitCode 1

/-- Claim C9 (confirmed): invalid configuration makes the process exit
with status 1 before `follow_log` is ever entered (in particular the
required combination service=ntfy plus a topic); valid configuration
proceeds to monitoring; and once monitoring, every `Exception`-class
runtime fault is absorbed by the loop instead of terminating the
process. -/
theorem C9_thm (c : Config) (fmt : LogFormat) (fl : Flags) (svc : NotifyService)
    (w : World) (now : Nat) (o : HttpOutcome) (e : PyExc) (s : RState) :
    (validate_config c = false → main_start c = MainStart.exitCode 1) ∧
    (c.notify_service = ("ntfy") → c.ntfy_topic = none →
      main_start c = MainStart.exitCode 1) ∧
    (validate_config c = true → main_start c = MainStart.monitoring) ∧
    (e.isException = true →
      (follow_log_iter fmt fl svc w now o (some e) s).raised = none) := by
  refine ⟨?_, ?_, ?_, ?_⟩
  · intro hv
    simp [main_start, hv]
  · intro hsvc htopic
    have hv : validate_config c = false := by
      unfold validate_config
      rw [hsvc, htopic]
      split
      · rfl
      · split
        · rfl
        · split
          · rfl
          · split
            · rfl
            · simp
    simp [main_start, hv]
  · intro hv
    simp [main_start, hv]
  · intro hE
    cases e with
    | ioError => rfl
    | permissionError => rfl
    | otherException => rfl
    | keyboardInterrupt => exact absurd hE (by simp [PyExc.isException])

/-- An invalid configuration: ntfy selected but no topic set. -/
def badCfg : Config :=
  Config.mk ("/logs/latest.log") true ("ntfy") ("server") none ("https://ntfy.sh")
    none ("Minecraft Server")

/-- A valid ntfy configuration. -/
def goodCfg : Config :=
  Config.mk ("/logs/latest.log") true ("ntfy") ("server") (some ("mc"))
    ("https://ntfy.sh") none ("Minecraft Server")

def c9w : World := World.mk [] none []

/-- Witness for C9: the bad configuration exits with status 1, the good
one reaches monitoring, and an `IOError` during monitoring does not
escape the loop. -/
theorem C9_witness :
    main_start badCfg = MainStart.exitCode 1 ∧
    main_start goodCfg = MainStart.monitoring ∧
    (follow_log_iter LogFormat.server allOn NotifyService.ntfy c9w 0
      (HttpOutcome.status 200) (some PyExc.ioError) initState).raised = none :=
  ⟨(C9_thm badCfg LogFormat.server allOn NotifyService.ntfy c9w 0
      (HttpOutcome.status 200) PyExc.ioError initState).1 (by decide),
   (C9_thm goodCfg LogFormat.server allOn NotifyService.ntfy c9w 0
      (HttpOutcome.status 200) PyExc.ioError initState).2.2.1 (by decide),
   (C9_thm goodCfg LogFormat.server allOn NotifyService.ntfy c9w 0
      (HttpOutcome.status 200) PyExc.ioError initState).2.2.2 (by decide)⟩

/-! ## Claim C10: the generic exception handler -/

def c10w : World := World.mk [] none []

/-- A state holding an open handle. -/
def c10s : RState := RState.mk (some 1) (some 10) (some (Handle.mk 1 3 2)) 5

/-- Claim C10, amended: an `Exception`-class fault other than `IOError`
and `PermissionError` raised in the loop body is caught and logged, the
iteration sleeps and continues with the state — in particular the open
file handle — left exactly as it was, and nothing escapes `follow_log`;
faults outside the `Exception` class (such as `KeyboardInterrupt`)
propagate out of the loop instead. -/
theorem C10_thm (fmt : LogFormat) (fl : Flags) (svc : NotifyService)
    (w : World) (now : Nat) (o : HttpOutcome) (s : RState) (e : PyExc)
    (hE : e.isException = true) (h1 : e ≠ PyExc.ioError)
    (h2 : e ≠ PyExc.permissionError) :
    (follow_log_iter fmt fl svc w now o (some e) s).st = s ∧
    (follow_log_iter fmt fl svc w now o (some e) s).raised = none := by
  cases e with
  | ioError => exact absurd rfl h1
  | permissionError => exact absurd rfl h2
  | otherException => exact ⟨rfl, rfl⟩
  | keyboardInterrupt => exact absurd hE (by simp [PyExc.isException])

/-- Claim C10 counterexample: a `KeyboardInterrupt` raised inside the
loop body — an exception that is neither `IOError` nor
`PermissionError` — is not caught by the loop's handlers and propagates
out of `follow_log` (which is exactly how `main`'s
`except KeyboardInterrupt` is reached), refuting "never propagates an
exception raised inside its loop body". -/
theorem C10_counterexample :
    (follow_log_iter LogFormat.server allOn NotifyService.ntfy c10w 0
      (HttpOutcome.status 200) (some PyExc.keyboardInterrupt) c10s).raised =
      some PyExc.keyboardInterrupt ∧
    PyExc.keyboardInterrupt ≠ PyExc.ioError ∧
    PyExc.keyboardInterrupt ≠ PyExc.permissionError := by
  decide

/-- Witness for C10: a generic `Exception` fault leaves the state — and
its open handle — untouched and does not escape. -/
theorem C10_witness :
    (follow_log_iter LogFormat.server allOn NotifyService.ntfy c10w 7
      (HttpOutcome.status 200) (some PyExc.otherException) c10s).st = c10s ∧
    (follow_log_iter LogFormat.server allOn NotifyService.ntfy c10w 7
      (HttpOutcome.status 200) (some PyExc.otherException) c10s).raised = none :=
  C10_thm LogFormat.server allOn NotifyService.ntfy c10w 7
    (HttpOutcome.status 200) c10s PyExc.otherException (by decide) (by decide)
    (by decide)

end MinecraftNtfy
